import Mathlib

/-
Verification of the k8sbroker resource-lifecycle controller and its services
registry.  The definitions below are a shallow embedding of
`k8sbroker/k8sbroker.go` (Provision, Bind, evaluateMode,
evaluateContainerPath, getFingerprint) and of the services registry
(NewServicesRegistry, IdentityClient, ControllerClient, DriverName).

External collaborators (the brokerstore Store, the kubernetes client, grpc
dialing, the UUID generator) are modelled as oracles: an environment record
supplies, per call, whether each external call succeeds or fails, and the
fresh volume handle.  Calls issued to the cluster gateway are recorded in an
explicit trace so that compensation behaviour (issuing a delete of a
just-created resource) is directly observable.
-/

deriving instance DecidableEq for Except

namespace K8s

/-- Access modes of kubernetes volumes/claims used by the broker
(`v1.ReadWriteMany`, `v1.ReadOnlyMany`). -/
inductive AccessMode
  | readWriteMany
  | readOnlyMany
deriving DecidableEq

/-- JSON values as they appear in the free-form `map[string]interface{}`
parameter maps of Bind.  The broker only ever probes the dynamic type of a
value (string / bool / other), so arrays and objects are collapsed into a
single opaque constructor. -/
inductive JVal
  | str (s : String)
  | num (n : Int)
  | boolean (b : Bool)
  | null
  | arrObj
deriving DecidableEq

/-- The error values the embedded code can return.  Each constructor stands
for one distinct Go error value (brokerapi sentinel errors, `errors.New`
validation errors, wrapped store/gateway/json errors). -/
inductive Err
  | rawParamsInvalid
  | configRequiresName
  | configRequiresCapacityRange
  | configRequiresServer
  | configRequiresShare
  | instanceAlreadyExists
  | instanceDoesNotExist
  | bindingAlreadyExists
  | bindingDoesNotExist
  | failedToStoreInstanceDetails (instanceID : String)
  | serviceNotFound (id : String)
  | emptySpecFile
  | invalidService (index : Nat)
  | gateway (msg : String)
  | store (msg : String)
  | jsonError (msg : String)
  | uuidError (msg : String)
deriving DecidableEq

/-- Result of deserializing a raw JSON byte payload into a typed value:
either it parses to `a`, or the unmarshal call fails. -/
inductive Raw (α : Type)
  | parsed (a : α)
  | malformed
deriving DecidableEq

/-- `csi.CapacityRange`: the broker only reads `RequiredBytes`. -/
structure CapacityRange where
  requiredBytes : Int
deriving DecidableEq

/-- `csi.CreateVolumeRequest` as consumed by Provision: a name, an optional
capacity range and a string-to-string parameter map. -/
structure CreateVolumeRequest where
  name : String
  capacityRange : Option CapacityRange
  parameters : List (String × String)
deriving DecidableEq

/-- The fields of a `v1.PersistentVolume` that `Provision` sets and that
`Bind`/`Deprovision` later read.  `capacity` is the storage quantity in
bytes (ParseQuantity of FormatInt of RequiredBytes never fails on an
integer, so the quantity is the integer itself). -/
structure PersistentVolume where
  name : String
  labels : List (String × String)
  accessModes : List AccessMode
  capacity : Int
  driver : String
  volumeHandle : String
  server : String
  share : String
deriving DecidableEq

/-- `ServiceFingerPrint` from k8sbroker.go: the volume name and the created
volume object. -/
structure ServiceFingerPrint where
  name : String
  volume : PersistentVolume
deriving DecidableEq

/-- The `ServiceFingerPrint` field of a stored `brokerstore.ServiceInstance`
is an `interface{}`: right after Provision it holds the typed struct, but a
record round-tripped through the Store's generic serialization arrives as a
generic document.  `generic (some fp)` is a document that re-decodes to
`fp` through the marshal/unmarshal path of `getFingerprint`; `generic none`
is a document on which that round trip fails (e.g. a JSON string). -/
inductive FingerprintDoc
  | typed (fp : ServiceFingerPrint)
  | generic (decoded : Option ServiceFingerPrint)
deriving DecidableEq

/-- `brokerstore.ServiceInstance`. -/
structure ServiceInstance where
  serviceID : String
  planID : String
  organizationGUID : String
  spaceGUID : String
  serviceFingerPrint : FingerprintDoc
deriving DecidableEq

/-- `brokerapi.ProvisionDetails`: the identifying fields plus the raw
request parameters (jsonpb unmarshalling of the raw bytes either yields a
`CreateVolumeRequest` or fails). -/
structure ProvisionDetails where
  serviceID : String
  planID : String
  organizationGUID : String
  spaceGUID : String
  rawParameters : Raw CreateVolumeRequest
deriving DecidableEq

/-- `brokerapi.BindDetails`: identifying fields plus raw parameters.
`none` models a nil `RawParameters` payload; `some .malformed` a payload
that `json.Unmarshal` rejects; `some (.parsed ps)` a payload decoding to the
key/value map `ps`. -/
structure BindDetails where
  appGUID : String
  planID : String
  serviceID : String
  rawParameters : Option (Raw (List (String × JVal)))
deriving DecidableEq

/-- A catalog plan (`brokerapi.ServicePlan`): the registry only checks
presence, so only identifying fields are kept. -/
structure Plan where
  id : String
  name : String
  description : String
deriving DecidableEq

/-- `Service` from k8sbroker.go: driver binding fields plus the embedded
`brokerapi.Service` fields the registry validates.  `plans = none` models a
Go nil `Plans` slice (absent in JSON); `plans = some []` models a present
but empty plan list, which is a non-nil slice in Go. -/
structure Service where
  driverName : String
  connAddr : String
  id : String
  name : String
  description : String
  plans : Option (List Plan)
deriving DecidableEq

/-- A CSI client handle as cached by the registry: either the no-op stub
(returned when the offering has no connection address) or a client
constructed from a successfully dialed connection, identified by the
connection it wraps. -/
inductive Client
  | noop
  | fromConn (conn : Nat)
deriving DecidableEq

/-- `servicesRegistry`: the loaded offering list and the two memoization
caches (service identifier to client). -/
structure ServicesRegistry where
  services : List Service
  identityClients : List (String × Client)
  controllerClients : List (String × Client)
deriving DecidableEq

/-- The fields of the `v1.PersistentVolumeClaim` spec that Bind fills in:
object name, access modes, requested storage, and the values of the
`name in (...)` label selector expression. -/
structure PersistentVolumeClaim where
  name : String
  accessModes : List AccessMode
  requests : Int
  selectorNameValues : List String
deriving DecidableEq

/-- One `brokerapi.VolumeMount` of a binding result.  `mountConfigName` is
the `"name"` entry of the shared device's mount configuration (the created
claim's name). -/
structure VolumeMount where
  containerDir : String
  mode : String
  driver : String
  deviceType : String
  volumeId : String
  mountConfigName : String
deriving DecidableEq

/-- `brokerapi.Binding` as constructed by Bind: a non-nil placeholder
credentials value and the volume mounts. -/
structure Binding where
  credentialsPresent : Bool
  volumeMounts : List VolumeMount
deriving DecidableEq

/-- `brokerapi.ProvisionedServiceSpec`. -/
structure ProvisionedServiceSpec where
  isAsync : Bool
deriving DecidableEq

/-- Modelled from the spec: the Store is an external collaborator holding a
durable mapping from instance/binding identifiers to their recorded
details. -/
structure StoreState where
  instances : List (String × ServiceInstance)
  bindings : List (String × BindDetails)
deriving DecidableEq

/-- Modelled from the spec: `createInstanceDetails(id, record)` records the
instance under its identifier (lookup-shadowing insert). -/
def StoreState.insertInstance (st : StoreState) (id : String) (rec : ServiceInstance) : StoreState :=
  ⟨(id, rec) :: st.instances, st.bindings⟩

/-- Modelled from the spec: the binding-equivalent create operation. -/
def StoreState.insertBinding (st : StoreState) (id : String) (details : BindDetails) : StoreState :=
  ⟨st.instances, (id, details) :: st.bindings⟩

/-- Modelled from the spec: `isInstanceConflict(id, record)` — two
InstanceRecords are conflicting if they share an instance identifier but
differ in any other field, so the check holds exactly when a record is
already stored under `id` whose content differs from `record`. -/
def StoreState.isInstanceConflict (st : StoreState) (instanceID : String) (details : ServiceInstance) : Bool :=
  match st.instances.lookup instanceID with
  | some existing => decide (existing ≠ details)
  | none => false

/-- Modelled from the spec: the binding-equivalent conflict check. -/
def StoreState.isBindingConflict (st : StoreState) (bindingID : String) (details : BindDetails) : Bool :=
  match st.bindings.lookup bindingID with
  | some existing => decide (existing ≠ details)
  | none => false

/-- `getFingerprint` from k8sbroker.go: a typed fingerprint is returned as
is; a generic document is round-tripped through marshal/unmarshal, failing
with the JSON error when the document does not decode. -/
def getFingerprint : FingerprintDoc → Except Err ServiceFingerPrint
  | .typed fp => .ok fp
  | .generic (some fp) => .ok fp
  | .generic none => .error (.jsonError "cannot unmarshal fingerprint")

/-- The message of the error `json.Unmarshal` returns on a malformed Bind
parameter payload; Bind returns this error value unchanged. -/
def jsonUnmarshalErrMsg : String := "invalid json in bind parameters"

/-- The parameter-map step of Bind (k8sbroker.go lines 331-339): a nil
payload yields the empty map, a malformed payload yields the raw
`json.Unmarshal` error, otherwise the decoded map. -/
def bindParams (bd : BindDetails) : Except Err (List (String × JVal)) :=
  match bd.rawParameters with
  | none => .ok []
  | some .malformed => .error (.jsonError jsonUnmarshalErrMsg)
  | some (.parsed ps) => .ok ps

/-- `evaluateMode` from k8sbroker.go: a `readonly` key must hold a boolean;
`true` gives mode token "r" with ReadOnlyMany, `false` (the switch `break`)
and absence give "rw" with ReadWriteMany, any non-boolean value is
`ErrRawParamsInvalid`. -/
def evaluateMode (parameters : List (String × JVal)) : Except Err (String × AccessMode) :=
  match parameters.lookup "readonly" with
  | some (JVal.boolean true) => .ok ("r", .readOnlyMany)
  | some (JVal.boolean false) => .ok ("rw", .readWriteMany)
  | some _ => .error .rawParamsInvalid
  | none => .ok ("rw", .readWriteMany)

/-- `DefaultContainerPath` constant. -/
def DefaultContainerPath : String := "/var/vcap/data"

/-- Go `path.Join` restricted to the already-clean, slash-normalized
segments this code joins (the constant base path and an identifier). -/
def pathJoin (a b : String) : String :=
  if a = "" then b else if b = "" then a else a ++ "/" ++ b

/-- `evaluateContainerPath` from k8sbroker.go.  The Go code tests
`ok && containerPath != ""` on an `interface{}` value — the comparison with
`""` is false only when the dynamic value is the string `""` — and then
performs the unchecked type assertion `containerPath.(string)`, which
panics when the value is not a string; `none` models that panic. -/
def evaluateContainerPath (parameters : List (String × JVal)) (volId : String) : Option String :=
  match parameters.lookup "mount" with
  | some containerPath =>
    if containerPath ≠ JVal.str "" then
      match containerPath with
      | JVal.str s => some s
      | _ => none
    else
      some (pathJoin DefaultContainerPath volId)
  | none => some (pathJoin DefaultContainerPath volId)

/-- `findServiceByID`: first offering whose identifier matches. -/
def ServicesRegistry.findServiceByID (r : ServicesRegistry) (serviceID : String) : Option Service :=
  r.services.find? (fun s => s.id == serviceID)

/-- `DriverName` from the services registry. -/
def ServicesRegistry.DriverName (r : ServicesRegistry) (serviceID : String) : Except Err String :=
  match r.findServiceByID serviceID with
  | none => .error (.serviceNotFound serviceID)
  | some s => .ok s.driverName

/-- The loop of `NewServicesRegistry`: index of the first entry lacking an
identifier, a name, a description, or whose `Plans` slice is nil. -/
def firstInvalidService : Nat → List Service → Option Nat
  | _, [] => none
  | i, s :: rest =>
    if s.id = "" ∨ s.name = "" ∨ s.description = "" ∨ s.plans = none then some i
    else firstInvalidService (i + 1) rest

/-- `NewServicesRegistry` from the point the offering list has been parsed:
an empty list is `ErrEmptySpecFile`, a list with an invalid entry is
`ErrInvalidService` at the first offending index, otherwise the registry is
built with both connection caches empty and no connection opened. -/
def NewServicesRegistry (services : List Service) : Except Err ServicesRegistry :=
  if services.length < 1 then .error .emptySpecFile
  else
    match firstInvalidService 0 services with
    | some i => .error (.invalidService i)
    | none => .ok ⟨services, [], []⟩

/-- Per-call oracle for a registry client call: the outcome grpc `Dial`
would have, identifying a fresh connection on success. -/
structure DialEnv where
  dialResult : Except Err Nat
deriving DecidableEq

/-- `IdentityClient` from the services registry.  Returns the call result,
the updated registry, and whether a dial was issued.  A cached client is
returned without dialing; an unknown service identifier fails without
touching the cache; an offering without connection address yields the noop
stub (not cached); a failed dial caches nothing; a successful dial caches
the constructed client. -/
def ServicesRegistry.IdentityClient (r : ServicesRegistry) (env : DialEnv) (serviceID : String) :
    Except Err Client × ServicesRegistry × Bool :=
  match r.identityClients.lookup serviceID with
  | some c => (.ok c, r, false)
  | none =>
    match r.findServiceByID serviceID with
    | none => (.error (.serviceNotFound serviceID), r, false)
    | some service =>
      if service.connAddr = "" then (.ok .noop, r, false)
      else
        match env.dialResult with
        | .error e => (.error e, r, true)
        | .ok conn =>
          (.ok (.fromConn conn),
           ⟨r.services, (serviceID, Client.fromConn conn) :: r.identityClients, r.controllerClients⟩,
           true)

/-- `ControllerClient` from the services registry; same shape as
`IdentityClient` over the controller-client cache. -/
def ServicesRegistry.ControllerClient (r : ServicesRegistry) (env : DialEnv) (serviceID : String) :
    Except Err Client × ServicesRegistry × Bool :=
  match r.controllerClients.lookup serviceID with
  | some c => (.ok c, r, false)
  | none =>
    match r.findServiceByID serviceID with
    | none => (.error (.serviceNotFound serviceID), r, false)
    | some service =>
      if service.connAddr = "" then (.ok .noop, r, false)
      else
        match env.dialResult with
        | .error e => (.error e, r, true)
        | .ok conn =>
          (.ok (.fromConn conn),
           ⟨r.services, r.identityClients, (serviceID, Client.fromConn conn) :: r.controllerClients⟩,
           true)

/-- One call issued to the cluster resource gateway (the kubernetes
client), as it appears in an operation's trace. -/
inductive GatewayOp
  | createVolume (v : PersistentVolume)
  | deleteVolume (name : String)
  | createClaim (ns : String) (c : PersistentVolumeClaim)
  | deleteClaim (ns : String) (name : String)
deriving DecidableEq

/-- The persistent volume Provision submits to the gateway. -/
def mkVolume (config : CreateVolumeRequest) (driver handle server share : String) (capacity : Int) :
    PersistentVolume :=
  ⟨config.name, [("name", config.name)], [.readWriteMany], capacity, driver, handle, server, share⟩

/-- The instance record Provision builds from the request and the created
volume: identifying fields of the request plus the typed fingerprint. -/
def mkInstance (details : ProvisionDetails) (config : CreateVolumeRequest) (v : PersistentVolume) :
    ServiceInstance :=
  ⟨details.serviceID, details.planID, details.organizationGUID, details.spaceGUID,
   .typed ⟨config.name, v⟩⟩

/-- The claim spec Bind submits to the gateway: name and selector from the
fingerprint's volume name, requested capacity from the volume's recorded
capacity, access mode as computed. -/
def mkClaim (fingerprint : ServiceFingerPrint) (mode : AccessMode) : PersistentVolumeClaim :=
  ⟨fingerprint.volume.name, [mode], fingerprint.volume.capacity, [fingerprint.volume.name]⟩

/-- The binding result Bind constructs on success. -/
def mkBinding (containerDir cfMode instanceID claimName : String) : Binding :=
  ⟨true, [⟨containerDir, cfMode, "csi", "shared", instanceID ++ "-volume", claimName⟩]⟩

/-- Per-call oracle for Provision: the fresh volume handle generated for
this call, and the outcome of each external call Provision may issue.  The
compensation delete's outcome is recorded but, as in the source, only ever
logged. -/
structure ProvisionEnv where
  volumeHandle : String
  uuidErr : Option Err
  createVolumeErr : Option Err
  deleteVolumeErr : Option Err
  createInstanceErr : Option Err
  saveErr : Option Err
deriving DecidableEq

/-- Outcome of one Provision call: the returned value, the Store after the
call, the gateway calls issued in order, and whether `store.Save` was
attempted before returning. -/
structure ProvisionOutcome where
  result : Except Err ProvisionedServiceSpec
  store : StoreState
  gatewayTrace : List GatewayOp
  saveAttempted : Bool
deriving DecidableEq

/-- `Broker.Provision` from k8sbroker.go.  Validation happens before any
gateway or store call; the volume is created before the lock is taken; the
`Save` defer is registered only after volume creation succeeded, so a
failing create returns without attempting `Save`; inside the critical
section the conflict check precedes `CreateInstanceDetails`; on return the
`Save` defer runs first (its error surfacing only if no earlier error) and
the cleanup defer runs last, issuing a delete of the created volume
whenever the outgoing error — after `Save` — is non-nil. -/
def Broker.Provision (store : StoreState) (registry : ServicesRegistry) (env : ProvisionEnv)
    (instanceID : String) (details : ProvisionDetails) : ProvisionOutcome :=
  match details.rawParameters with
  | .malformed => ⟨.error .rawParamsInvalid, store, [], false⟩
  | .parsed configuration =>
    if configuration.name = "" then ⟨.error .configRequiresName, store, [], false⟩
    else
      match configuration.capacityRange with
      | none => ⟨.error .configRequiresCapacityRange, store, [], false⟩
      | some capacityRange =>
        match configuration.parameters.lookup "server" with
        | none => ⟨.error .configRequiresServer, store, [], false⟩
        | some server =>
          match configuration.parameters.lookup "share" with
          | none => ⟨.error .configRequiresShare, store, [], false⟩
          | some share =>
            match env.uuidErr with
            | some e => ⟨.error e, store, [], false⟩
            | none =>
              match registry.DriverName details.serviceID with
              | .error e => ⟨.error e, store, [], false⟩
              | .ok driverName =>
                let volume := mkVolume configuration driverName env.volumeHandle server share
                  capacityRange.requiredBytes
                match env.createVolumeErr with
                | some e => ⟨.error e, store, [.createVolume volume], false⟩
                | none =>
                  let instanceDetails := mkInstance details configuration volume
                  if store.isInstanceConflict instanceID instanceDetails then
                    ⟨.error .instanceAlreadyExists, store,
                     [.createVolume volume, .deleteVolume configuration.name], true⟩
                  else
                    match env.createInstanceErr with
                    | some _ =>
                      ⟨.error (.failedToStoreInstanceDetails instanceID), store,
                       [.createVolume volume, .deleteVolume configuration.name], true⟩
                    | none =>
                      match env.saveErr with
                      | some se =>
                        ⟨.error se, store.insertInstance instanceID instanceDetails,
                         [.createVolume volume, .deleteVolume configuration.name], true⟩
                      | none =>
                        ⟨.ok ⟨false⟩, store.insertInstance instanceID instanceDetails,
                         [.createVolume volume], true⟩

/-- Per-call oracle for Bind. -/
structure BindEnv where
  createClaimErr : Option Err
  deleteClaimErr : Option Err
  createBindingErr : Option Err
  saveErr : Option Err
deriving DecidableEq

/-- A Bind call's returned value: success, an error, or the panic raised by
the unchecked type assertion in `evaluateContainerPath`. -/
inductive BindResult
  | success (b : Binding)
  | failure (e : Err)
  | panicked
deriving DecidableEq

/-- Outcome of one Bind call. -/
structure BindOutcome where
  result : BindResult
  store : StoreState
  gatewayTrace : List GatewayOp
  saveAttempted : Bool
deriving DecidableEq

/-- `Broker.Bind` from k8sbroker.go.  The `Save` defer is registered at the
top, so `Save` is attempted on every path including a panic; the claim
cleanup defer is registered after the claim was created and, being
registered later, runs before the `Save` defer: it sees the pre-`Save`
error, so a post-success `Save` failure does not trigger claim deletion,
while a `CreateBindingDetails` failure does.  During the container-path
panic the named error is still nil, so no cleanup delete is issued. -/
def Broker.Bind (store : StoreState) (ns : String) (env : BindEnv)
    (instanceID bindingID : String) (bindDetails : BindDetails) : BindOutcome :=
  match store.instances.lookup instanceID with
  | none => ⟨.failure .instanceDoesNotExist, store, [], true⟩
  | some instanceDetails =>
    match getFingerprint instanceDetails.serviceFingerPrint with
    | .error e => ⟨.failure e, store, [], true⟩
    | .ok fingerprint =>
      match bindParams bindDetails with
      | .error e => ⟨.failure e, store, [], true⟩
      | .ok params =>
        if store.isBindingConflict bindingID bindDetails then
          ⟨.failure .bindingAlreadyExists, store, [], true⟩
        else
          match evaluateMode params with
          | .error _ => ⟨.failure .rawParamsInvalid, store, [], true⟩
          | .ok (cfMode, k8sMode) =>
            let claim := mkClaim fingerprint k8sMode
            match env.createClaimErr with
            | some e => ⟨.failure e, store, [.createClaim ns claim], true⟩
            | none =>
              match env.createBindingErr with
              | some e =>
                ⟨.failure e, store,
                 [.createClaim ns claim, .deleteClaim ns fingerprint.volume.name], true⟩
              | none =>
                let store1 := store.insertBinding bindingID bindDetails
                match evaluateContainerPath params instanceID with
                | none => ⟨.panicked, store1, [.createClaim ns claim], true⟩
                | some containerDir =>
                  match env.saveErr with
                  | some se => ⟨.failure se, store1, [.createClaim ns claim], true⟩
                  | none =>
                    ⟨.success (mkBinding containerDir cfMode instanceID claim.name), store1,
                     [.createClaim ns claim], true⟩

/-- A concrete catalog plan used in concrete runs. -/
def plan1 : Plan := ⟨"plan-1", "Existing", "a plan"⟩

/-- A concrete offering without connection address (noop driver stub). -/
def svc1 : Service := ⟨"nfs-driver", "", "svc-1", "nfs", "an nfs service", some [plan1]⟩

/-- A concrete offering with a connection address, so client resolution
dials. -/
def svcDial : Service := ⟨"csi-driver", "10.0.0.9:7777", "svc-2", "csi", "a csi service", some [plan1]⟩

/-- A registry over the two concrete offerings with empty caches. -/
def reg1 : ServicesRegistry := ⟨[svc1, svcDial], [], []⟩

/-- A concrete well-formed volume-creation request. -/
def cfg1 : CreateVolumeRequest :=
  ⟨"k8s-volume", some ⟨2⟩, [("server", "10.0.0.5"), ("share", "/export/x")]⟩

/-- Concrete provision details carrying `cfg1`. -/
def det1 : ProvisionDetails := ⟨"svc-1", "plan-1", "org-1", "space-1", .parsed cfg1⟩

/-- A provision environment where every external call succeeds; the fresh
volume handle of the first call. -/
def envA : ProvisionEnv := ⟨"handle-1", none, none, none, none, none⟩

/-- The all-success environment of a second call: only the fresh volume
handle differs, as the handle is generated anew per call. -/
def envB : ProvisionEnv := ⟨"handle-2", none, none, none, none, none⟩

/-- The empty store. -/
def st0 : StoreState := ⟨[], []⟩

/-- The store after one successful Provision of instance `i1` with `det1`. -/
def st1 : StoreState := (Broker.Provision st0 reg1 envA "i1" det1).store

/-- The volume the first concrete Provision creates. -/
def volA : PersistentVolume := mkVolume cfg1 "nfs-driver" "handle-1" "10.0.0.5" "/export/x" 2

/-- The instance record the first concrete Provision stores. -/
def recA : ServiceInstance := mkInstance det1 cfg1 volA

/-- A provision environment whose `CreateInstanceDetails` call fails. -/
def envStoreFail : ProvisionEnv := ⟨"handle-1", none, none, none, some (.store "boom"), none⟩

/-- A provision environment whose create-volume gateway call fails. -/
def envCreateFail : ProvisionEnv :=
  ⟨"handle-1", none, some (.gateway "pv create failed"), none, none, none⟩

/-- A provision environment whose `Save` flush fails. -/
def envSaveFail : ProvisionEnv := ⟨"handle-1", none, none, none, none, some (.store "save failed")⟩

/-- A bind environment where every external call succeeds. -/
def benv0 : BindEnv := ⟨none, none, none, none⟩

/-- Concrete bind details with no raw parameters. -/
def bd0 : BindDetails := ⟨"app-1", "plan-1", "svc-1", none⟩

/-- Concrete bind details whose raw parameters are malformed JSON. -/
def bdMal : BindDetails := ⟨"app-1", "plan-1", "svc-1", some .malformed⟩

/-- Concrete bind details whose `mount` parameter is a number, not a
string. -/
def bdMount : BindDetails := ⟨"app-1", "plan-1", "svc-1", some (.parsed [("mount", .num 5)])⟩

/-- A concrete request missing the `share` parameter. -/
def cfgNoShare : CreateVolumeRequest := ⟨"v", some ⟨2⟩, [("server", "10.0.0.5")]⟩

/-- Provision details carrying `cfgNoShare`. -/
def detNoShare : ProvisionDetails := ⟨"svc-1", "plan-1", "org-1", "space-1", .parsed cfgNoShare⟩

/-- A concrete offering whose plan list is present but empty: a non-nil
empty `Plans` slice in Go. -/
def svcEmptyPlans : Service := ⟨"drv", "", "svc-e", "name-e", "desc-e", some []⟩

/-- A dial environment whose dial succeeds with connection 7. -/
def envDialOk : DialEnv := ⟨.ok 7⟩

/-- A dial environment whose dial fails. -/
def envDialFail : DialEnv := ⟨.error (.gateway "dial refused")⟩

/-- C9: Provision validates mandatory request fields before any Gateway or
Store interaction — a request without a name fails with the "requires a
name" error, one with no capacity range with "requires a capacity_range",
one whose parameters lack `server` with "requires a server", one whose
parameters lack `share` with "requires a share" — and in each failure case
the store is unchanged, no gateway call is issued, and Save is not
attempted. -/
theorem provision_validates_mandatory_fields
    (store : StoreState) (registry : ServicesRegistry) (env : ProvisionEnv)
    (instanceID : String) (details : ProvisionDetails) (config : CreateVolumeRequest)
    (hraw : details.rawParameters = .parsed config) :
    (config.name = "" →
      Broker.Provision store registry env instanceID details
        = ⟨.error .configRequiresName, store, [], false⟩) ∧
    (config.name ≠ "" → config.capacityRange = none →
      Broker.Provision store registry env instanceID details
        = ⟨.error .configRequiresCapacityRange, store, [], false⟩) ∧
    (∀ cr, config.name ≠ "" → config.capacityRange = some cr →
      config.parameters.lookup "server" = none →
      Broker.Provision store registry env instanceID details
        = ⟨.error .configRequiresServer, store, [], false⟩) ∧
    (∀ cr server, config.name ≠ "" → config.capacityRange = some cr →
      config.parameters.lookup "server" = some server →
      config.parameters.lookup "share" = none →
      Broker.Provision store registry env instanceID details
        = ⟨.error .configRequiresShare, store, [], false⟩) := by
  refine ⟨?_, ?_, ?_, ?_⟩
  · intro h
    simp [Broker.Provision, hraw, h]
  · intro h1 h2
    simp [Broker.Provision, hraw, h1, h2]
  · intro cr h1 h2 h3
    simp [Broker.Provision, hraw, h1, h2, h3]
  · intro cr server h1 h2 h3 h4
    simp [Broker.Provision, hraw, h1, h2, h3, h4]

/-- Witness for C9: the concrete request lacking only `share` fails with
the "requires a share" error, leaving the empty store untouched with no
gateway call and no Save. -/
theorem provision_validates_mandatory_fields_witness :
    Broker.Provision st0 reg1 envA "i1" detNoShare
      = ⟨.error .configRequiresShare, st0, [], false⟩ := by
  exact (provision_validates_mandatory_fields st0 reg1 envA "i1" detNoShare cfgNoShare
    rfl).2.2.2 ⟨2⟩ "10.0.0.5" (by decide) rfl rfl rfl

/-- C2: whenever the cluster volume was created but the Store's
create-instance-details call then fails, Provision issues a delete of the
just-created volume before returning and returns the failed-to-store
error, not success; the store is unchanged. -/
theorem provision_compensates_on_store_failure
    (store : StoreState) (registry : ServicesRegistry) (env : ProvisionEnv)
    (instanceID : String) (details : ProvisionDetails) (config : CreateVolumeRequest)
    (cr : CapacityRange) (server share driverName : String) (serr : Err)
    (hraw : details.rawParameters = .parsed config)
    (hname : config.name ≠ "")
    (hcap : config.capacityRange = some cr)
    (hserver : config.parameters.lookup "server" = some server)
    (hshare : config.parameters.lookup "share" = some share)
    (huuid : env.uuidErr = none)
    (hdriver : registry.DriverName details.serviceID = .ok driverName)
    (hcreate : env.createVolumeErr = none)
    (hconflict : store.isInstanceConflict instanceID
      (mkInstance details config
        (mkVolume config driverName env.volumeHandle server share cr.requiredBytes)) = false)
    (hstore : env.createInstanceErr = some serr) :
    Broker.Provision store registry env instanceID details
      = ⟨.error (.failedToStoreInstanceDetails instanceID), store,
         [.createVolume (mkVolume config driverName env.volumeHandle server share cr.requiredBytes),
          .deleteVolume config.name], true⟩ := by
  simp [Broker.Provision, hraw, hname, hcap, hserver, hshare, huuid, hdriver, hcreate,
    hconflict, hstore]

/-- Witness for C2: with the concrete request and a store whose
create-instance call fails, Provision returns the failed-to-store error and
its gateway trace is the volume create followed by its delete. -/
theorem provision_compensates_on_store_failure_witness :
    Broker.Provision st0 reg1 envStoreFail "i1" det1
      = ⟨.error (.failedToStoreInstanceDetails "i1"), st0,
         [.createVolume volA, .deleteVolume "k8s-volume"], true⟩ := by
  exact provision_compensates_on_store_failure st0 reg1 envStoreFail "i1" det1 cfg1 ⟨2⟩
    "10.0.0.5" "/export/x" "nfs-driver" (.store "boom") rfl (by decide) rfl rfl rfl rfl rfl rfl
    rfl rfl

/-- C8: the outcome of Provision never depends on the outcome of the
compensating volume delete, and the outcome of Bind never depends on the
outcome of the compensating claim delete: the caller always observes the
error that triggered compensation, and the rest of the outcome (store,
issued calls, Save) is identical as well. -/
theorem compensation_failure_never_masks_error
    (store : StoreState) (registry : ServicesRegistry)
    (vh : String) (ue cve cie se x y : Option Err)
    (cce cbe bse x2 y2 : Option Err)
    (ns instanceID bindingID : String) (details : ProvisionDetails) (bd : BindDetails) :
    Broker.Provision store registry ⟨vh, ue, cve, x, cie, se⟩ instanceID details
      = Broker.Provision store registry ⟨vh, ue, cve, y, cie, se⟩ instanceID details ∧
    Broker.Bind store ns ⟨cce, x2, cbe, bse⟩ instanceID bindingID bd
      = Broker.Bind store ns ⟨cce, y2, cbe, bse⟩ instanceID bindingID bd :=
  ⟨rfl, rfl⟩

/-- Counterexample to C1: starting from the empty store, Provision of `i1`
succeeds; a second Provision of `i1` with the byte-identical request
details (only the generated volume handle is new, as it must be fresh per
call) does fail with InstanceAlreadyExistsError, because the stored record
embeds the first call's volume handle. -/
theorem provision_identical_retry_still_conflicts :
    (Broker.Provision st0 reg1 envA "i1" det1).result = .ok ⟨false⟩ ∧
    envA.volumeHandle ≠ envB.volumeHandle ∧
    (Broker.Provision st1 reg1 envB "i1" det1).result = .error .instanceAlreadyExists :=
  ⟨rfl, by decide, rfl⟩

/-- C1 as amended: a second Provision call that reaches the conflict check
(its create-volume call succeeded) for an instance identifier whose stored
record differs from the newly built record — which always holds when the
fresh volume handle differs from the recorded one, even for identical
request details — fails with InstanceAlreadyExistsError, keeps the Store
exactly as it was (the first call's record), and issues a delete of the
second call's cluster volume before returning. -/
theorem provision_retry_conflicts_when_record_differs
    (store : StoreState) (registry : ServicesRegistry) (env : ProvisionEnv)
    (instanceID : String) (details : ProvisionDetails) (config : CreateVolumeRequest)
    (cr : CapacityRange) (server share driverName : String) (old : ServiceInstance)
    (hraw : details.rawParameters = .parsed config)
    (hname : config.name ≠ "")
    (hcap : config.capacityRange = some cr)
    (hserver : config.parameters.lookup "server" = some server)
    (hshare : config.parameters.lookup "share" = some share)
    (huuid : env.uuidErr = none)
    (hdriver : registry.DriverName details.serviceID = .ok driverName)
    (hcreate : env.createVolumeErr = none)
    (hold : store.instances.lookup instanceID = some old)
    (hne : old ≠ mkInstance details config
      (mkVolume config driverName env.volumeHandle server share cr.requiredBytes)) :
    Broker.Provision store registry env instanceID details
      = ⟨.error .instanceAlreadyExists, store,
         [.createVolume (mkVolume config driverName env.volumeHandle server share cr.requiredBytes),
          .deleteVolume config.name], true⟩ := by
  have hconf : store.isInstanceConflict instanceID
      (mkInstance details config
        (mkVolume config driverName env.volumeHandle server share cr.requiredBytes)) = true := by
    simp [StoreState.isInstanceConflict, hold, hne]
  simp [Broker.Provision, hraw, hname, hcap, hserver, hshare, huuid, hdriver, hcreate, hconf]

/-- Witness for the amended C1: the concrete second call with identical
request details but the fresh handle `handle-2` conflicts, leaves the store
holding the first record, and issues the compensating delete. -/
theorem provision_retry_conflicts_when_record_differs_witness :
    Broker.Provision st1 reg1 envB "i1" det1
      = ⟨.error .instanceAlreadyExists, st1,
         [.createVolume (mkVolume cfg1 "nfs-driver" "handle-2" "10.0.0.5" "/export/x" 2),
          .deleteVolume "k8s-volume"], true⟩ := by
  exact provision_retry_conflicts_when_record_differs st1 reg1 envB "i1" det1 cfg1 ⟨2⟩
    "10.0.0.5" "/export/x" "nfs-driver" recA rfl (by decide) rfl rfl rfl rfl rfl rfl rfl
    (by decide)

/-- Counterexample to C3: when the create-volume call to the Gateway fails,
Provision returns the Gateway error without attempting the Store's durable
snapshot flush — `Save` is registered as a defer only after the volume was
created, so it is not always attempted after a cluster-level error. -/
theorem provision_skips_save_when_create_volume_fails :
    (Broker.Provision st0 reg1 envCreateFail "i1" det1).saveAttempted = false ∧
    (Broker.Provision st0 reg1 envCreateFail "i1" det1).result
      = .error (.gateway "pv create failed") :=
  ⟨rfl, rfl⟩

/-- C3 as amended: once the create-volume call has succeeded, the Store's
durable snapshot flush is attempted before Provision returns on every path
— conflict, persistence failure, or success — and a flush error is
returned only if no earlier error already occurred: a conflict still
returns InstanceAlreadyExistsError and a persistence failure still returns
the failed-to-store error, while a flush failure after an otherwise
successful call returns the flush error.  When the create-volume call
itself fails, Provision returns the Gateway error without attempting the
flush. -/
theorem provision_save_attempted_after_volume_create
    (store : StoreState) (registry : ServicesRegistry) (env : ProvisionEnv)
    (instanceID : String) (details : ProvisionDetails) (config : CreateVolumeRequest)
    (cr : CapacityRange) (server share driverName : String)
    (hraw : details.rawParameters = .parsed config)
    (hname : config.name ≠ "")
    (hcap : config.capacityRange = some cr)
    (hserver : config.parameters.lookup "server" = some server)
    (hshare : config.parameters.lookup "share" = some share)
    (huuid : env.uuidErr = none)
    (hdriver : registry.DriverName details.serviceID = .ok driverName) :
    (env.createVolumeErr = none →
      (Broker.Provision store registry env instanceID details).saveAttempted = true) ∧
    (env.createVolumeErr = none →
      store.isInstanceConflict instanceID
        (mkInstance details config
          (mkVolume config driverName env.volumeHandle server share cr.requiredBytes)) = true →
      (Broker.Provision store registry env instanceID details).result
        = .error .instanceAlreadyExists) ∧
    (∀ e, env.createVolumeErr = none →
      store.isInstanceConflict instanceID
        (mkInstance details config
          (mkVolume config driverName env.volumeHandle server share cr.requiredBytes)) = false →
      env.createInstanceErr = some e →
      (Broker.Provision store registry env instanceID details).result
        = .error (.failedToStoreInstanceDetails instanceID)) ∧
    (∀ se, env.createVolumeErr = none →
      store.isInstanceConflict instanceID
        (mkInstance details config
          (mkVolume config driverName env.volumeHandle server share cr.requiredBytes)) = false →
      env.createInstanceErr = none → env.saveErr = some se →
      (Broker.Provision store registry env instanceID details).result = .error se) ∧
    (∀ e, env.createVolumeErr = some e →
      (Broker.Provision store registry env instanceID details).saveAttempted = false ∧
      (Broker.Provision store registry env instanceID details).result = .error e) := by
  refine ⟨?_, ?_, ?_, ?_, ?_⟩
  · intro hcv
    rcases hconf : store.isInstanceConflict instanceID
      (mkInstance details config
        (mkVolume config driverName env.volumeHandle server share cr.requiredBytes)) with _ | _
    · rcases hcie : env.createInstanceErr with _ | e
      · rcases hse : env.saveErr with _ | se
        · simp [Broker.Provision, hraw, hname, hcap, hserver, hshare, huuid, hdriver, hcv,
            hconf, hcie, hse]
        · simp [Broker.Provision, hraw, hname, hcap, hserver, hshare, huuid, hdriver, hcv,
            hconf, hcie, hse]
      · simp [Broker.Provision, hraw, hname, hcap, hserver, hshare, huuid, hdriver, hcv,
          hconf, hcie]
    · simp [Broker.Provision, hraw, hname, hcap, hserver, hshare, huuid, hdriver, hcv, hconf]
  · intro hcv hconf
    simp [Broker.Provision, hraw, hname, hcap, hserver, hshare, huuid, hdriver, hcv, hconf]
  · intro e hcv hconf hcie
    simp [Broker.Provision, hraw, hname, hcap, hserver, hshare, huuid, hdriver, hcv, hconf, hcie]
  · intro se hcv hconf hcie hse
    simp [Broker.Provision, hraw, hname, hcap, hserver, hshare, huuid, hdriver, hcv, hconf,
      hcie, hse]
  · intro e hcv
    refine ⟨?_, ?_⟩ <;>
      simp [Broker.Provision, hraw, hname, hcap, hserver, hshare, huuid, hdriver, hcv]

/-- Witness for the amended C3: on the concrete conflict-free store, a call
whose only failure is the flush returns the flush error with the flush
attempted, and a call whose create-volume fails returns the Gateway error
with the flush not attempted. -/
theorem provision_save_attempted_after_volume_create_witness :
    (Broker.Provision st0 reg1 envSaveFail "i1" det1).saveAttempted = true ∧
    (Broker.Provision st0 reg1 envSaveFail "i1" det1).result = .error (.store "save failed") ∧
    (Broker.Provision st0 reg1 envCreateFail "i1" det1).saveAttempted = false := by
  refine ⟨?_, ?_, ?_⟩
  · exact (provision_save_attempted_after_volume_create st0 reg1 envSaveFail "i1" det1 cfg1 ⟨2⟩
      "10.0.0.5" "/export/x" "nfs-driver" rfl (by decide) rfl rfl rfl rfl rfl).1 rfl
  · exact (provision_save_attempted_after_volume_create st0 reg1 envSaveFail "i1" det1 cfg1 ⟨2⟩
      "10.0.0.5" "/export/x" "nfs-driver" rfl (by decide) rfl rfl rfl rfl rfl).2.2.2.1
      (.store "save failed") rfl rfl rfl rfl
  · exact ((provision_save_attempted_after_volume_create st0 reg1 envCreateFail "i1" det1 cfg1 ⟨2⟩
      "10.0.0.5" "/export/x" "nfs-driver" rfl (by decide) rfl rfl rfl rfl rfl).2.2.2.2
      (.gateway "pv create failed") rfl).1

/-- C4: for every Bind call on an existing instance (fingerprint decodes,
parameters parse, no binding conflict), the claim submitted to the gateway
requests exactly the capacity recorded in the instance's fingerprint, and
the access mode depends only on the `readonly` parameter: absence or
`false` yields read-write-many and, on success, mode token "rw";
`true` yields read-only-many and mode token "r"; a non-boolean value fails
the call with the invalid-raw-params error before any gateway call. -/
theorem bind_claim_capacity_and_mode
    (store : StoreState) (ns : String) (env : BindEnv)
    (instanceID bindingID : String) (bd : BindDetails)
    (inst : ServiceInstance) (fp : ServiceFingerPrint) (ps : List (String × JVal))
    (hinst : store.instances.lookup instanceID = some inst)
    (hfp : getFingerprint inst.serviceFingerPrint = .ok fp)
    (hps : bindParams bd = .ok ps)
    (hnoconf : store.isBindingConflict bindingID bd = false) :
    (ps.lookup "readonly" = none ∨ ps.lookup "readonly" = some (.boolean false) →
      (Broker.Bind store ns env instanceID bindingID bd).gatewayTrace.head?
        = some (.createClaim ns
            ⟨fp.volume.name, [.readWriteMany], fp.volume.capacity, [fp.volume.name]⟩) ∧
      ∀ b, (Broker.Bind store ns env instanceID bindingID bd).result = .success b →
        b.volumeMounts.map VolumeMount.mode = ["rw"]) ∧
    (ps.lookup "readonly" = some (.boolean true) →
      (Broker.Bind store ns env instanceID bindingID bd).gatewayTrace.head?
        = some (.createClaim ns
            ⟨fp.volume.name, [.readOnlyMany], fp.volume.capacity, [fp.volume.name]⟩) ∧
      ∀ b, (Broker.Bind store ns env instanceID bindingID bd).result = .success b →
        b.volumeMounts.map VolumeMount.mode = ["r"]) ∧
    (∀ v, ps.lookup "readonly" = some v → (∀ b, v ≠ .boolean b) →
      Broker.Bind store ns env instanceID bindingID bd
        = ⟨.failure .rawParamsInvalid, store, [], true⟩) := by
  refine ⟨?_, ?_, ?_⟩
  · intro hro
    have hmode : evaluateMode ps = .ok ("rw", .readWriteMany) := by
      rcases hro with h | h <;> simp [evaluateMode, h]
    rcases hcc : env.createClaimErr with _ | e
    · rcases hcb : env.createBindingErr with _ | e2
      · rcases hpath : evaluateContainerPath ps instanceID with _ | dir
        · simp [Broker.Bind, hinst, hfp, hps, hnoconf, hmode, hcc, hcb, hpath, mkClaim]
        · rcases hse : env.saveErr with _ | se
          · simp [Broker.Bind, hinst, hfp, hps, hnoconf, hmode, hcc, hcb, hpath, hse, mkClaim,
              mkBinding]
          · simp [Broker.Bind, hinst, hfp, hps, hnoconf, hmode, hcc, hcb, hpath, hse, mkClaim]
      · simp [Broker.Bind, hinst, hfp, hps, hnoconf, hmode, hcc, hcb, mkClaim]
    · simp [Broker.Bind, hinst, hfp, hps, hnoconf, hmode, hcc, mkClaim]
  · intro hro
    have hmode : evaluateMode ps = .ok ("r", .readOnlyMany) := by
      simp [evaluateMode, hro]
    rcases hcc : env.createClaimErr with _ | e
    · rcases hcb : env.createBindingErr with _ | e2
      · rcases hpath : evaluateContainerPath ps instanceID with _ | dir
        · simp [Broker.Bind, hinst, hfp, hps, hnoconf, hmode, hcc, hcb, hpath, mkClaim]
        · rcases hse : env.saveErr with _ | se
          · simp [Broker.Bind, hinst, hfp, hps, hnoconf, hmode, hcc, hcb, hpath, hse, mkClaim,
              mkBinding]
          · simp [Broker.Bind, hinst, hfp, hps, hnoconf, hmode, hcc, hcb, hpath, hse, mkClaim]
      · simp [Broker.Bind, hinst, hfp, hps, hnoconf, hmode, hcc, hcb, mkClaim]
    · simp [Broker.Bind, hinst, hfp, hps, hnoconf, hmode, hcc, mkClaim]
  · intro v hro hnb
    have hmode : evaluateMode ps = .error .rawParamsInvalid := by
      rcases v with s | n | b | _ | _
      · simp [evaluateMode, hro]
      · simp [evaluateMode, hro]
      · exact absurd rfl (hnb b)
      · simp [evaluateMode, hro]
      · simp [evaluateMode, hro]
    simp [Broker.Bind, hinst, hfp, hps, hnoconf, hmode]

/-- Witness for C4: the concrete parameter-free Bind on the provisioned
instance submits a read-write-many claim for the recorded 2-byte capacity,
and a readonly=true Bind submits a read-only-many claim. -/
theorem bind_claim_capacity_and_mode_witness :
    (Broker.Bind st1 "ns" benv0 "i1" "b1" bd0).gatewayTrace.head?
      = some (.createClaim "ns" ⟨"k8s-volume", [.readWriteMany], 2, ["k8s-volume"]⟩) ∧
    (Broker.Bind st1 "ns" benv0 "i1" "b1"
        ⟨"app-1", "plan-1", "svc-1", some (.parsed [("readonly", .boolean true)])⟩).gatewayTrace.head?
      = some (.createClaim "ns" ⟨"k8s-volume", [.readOnlyMany], 2, ["k8s-volume"]⟩) := by
  refine ⟨?_, ?_⟩
  · exact ((bind_claim_capacity_and_mode st1 "ns" benv0 "i1" "b1" bd0 recA
      ⟨"k8s-volume", volA⟩ [] rfl rfl rfl rfl).1 (Or.inl rfl)).1
  · exact ((bind_claim_capacity_and_mode st1 "ns" benv0 "i1" "b1"
      ⟨"app-1", "plan-1", "svc-1", some (.parsed [("readonly", .boolean true)])⟩ recA
      ⟨"k8s-volume", volA⟩ [("readonly", .boolean true)] rfl rfl rfl rfl).2.1 rfl).1

/-- Counterexample to C5: a Bind whose raw parameters are malformed JSON
fails with the raw `json.Unmarshal` error, which is a different error value
than the invalid-raw-params error (`brokerapi.ErrRawParamsInvalid`) the
claim names. -/
theorem bind_malformed_params_returns_raw_json_error :
    (Broker.Bind st1 "ns" benv0 "i1" "b1" bdMal).result
      = .failure (.jsonError jsonUnmarshalErrMsg) ∧
    Err.jsonError jsonUnmarshalErrMsg ≠ Err.rawParamsInvalid :=
  ⟨rfl, by decide⟩

/-- C5 as amended: for every Bind call on an existing instance whose raw
parameters are present but malformed, Bind fails with the raw JSON
unmarshal error surfaced as-is (not the invalid-raw-params error), touching
neither the store nor the gateway; when raw parameters are absent Bind
proceeds with an empty parameter map, submitting the default read-write
claim for the recorded capacity. -/
theorem bind_param_parsing
    (store : StoreState) (ns : String) (env : BindEnv)
    (instanceID bindingID : String) (bd : BindDetails)
    (inst : ServiceInstance) (fp : ServiceFingerPrint)
    (hinst : store.instances.lookup instanceID = some inst)
    (hfp : getFingerprint inst.serviceFingerPrint = .ok fp) :
    (bd.rawParameters = some .malformed →
      Broker.Bind store ns env instanceID bindingID bd
        = ⟨.failure (.jsonError jsonUnmarshalErrMsg), store, [], true⟩) ∧
    (bd.rawParameters = none → store.isBindingConflict bindingID bd = false →
      (Broker.Bind store ns env instanceID bindingID bd).gatewayTrace.head?
        = some (.createClaim ns
            ⟨fp.volume.name, [.readWriteMany], fp.volume.capacity, [fp.volume.name]⟩)) := by
  refine ⟨?_, ?_⟩
  · intro hrp
    have hps : bindParams bd = .error (.jsonError jsonUnmarshalErrMsg) := by
      simp [bindParams, hrp]
    simp [Broker.Bind, hinst, hfp, hps]
  · intro hrp hnoconf
    have hps : bindParams bd = .ok [] := by simp [bindParams, hrp]
    exact ((bind_claim_capacity_and_mode store ns env instanceID bindingID bd inst fp []
      hinst hfp hps hnoconf).1 (Or.inl rfl)).1

/-- Witness for the amended C5: concretely, the malformed payload yields
the JSON error with nothing issued, and the absent payload proceeds to
submit the default claim. -/
theorem bind_param_parsing_witness :
    Broker.Bind st1 "ns" benv0 "i1" "b1" bdMal
      = ⟨.failure (.jsonError jsonUnmarshalErrMsg), st1, [], true⟩ ∧
    (Broker.Bind st1 "ns" benv0 "i1" "b1" bd0).gatewayTrace.head?
      = some (.createClaim "ns" ⟨"k8s-volume", [.readWriteMany], 2, ["k8s-volume"]⟩) := by
  refine ⟨?_, ?_⟩
  · exact (bind_param_parsing st1 "ns" benv0 "i1" "b1" bdMal recA ⟨"k8s-volume", volA⟩
      rfl rfl).1 rfl
  · exact (bind_param_parsing st1 "ns" benv0 "i1" "b1" bd0 recA ⟨"k8s-volume", volA⟩
      rfl rfl).2 rfl rfl

/-- C10: a `mount` parameter holding a non-string value makes the
container-path evaluation's unchecked string type assertion panic — the
whole Bind call ends in a panic rather than a validation error — while a
non-empty string is returned as the container path and absence or the
empty string yields the default base path joined with the instance
identifier. -/
theorem bind_mount_param_type_assertion
    (store : StoreState) (ns : String) (env : BindEnv)
    (instanceID bindingID : String) (bd : BindDetails)
    (inst : ServiceInstance) (fp : ServiceFingerPrint) (ps : List (String × JVal))
    (cfMode : String) (k8sMode : AccessMode)
    (hinst : store.instances.lookup instanceID = some inst)
    (hfp : getFingerprint inst.serviceFingerPrint = .ok fp)
    (hps : bindParams bd = .ok ps)
    (hnoconf : store.isBindingConflict bindingID bd = false)
    (hmode : evaluateMode ps = .ok (cfMode, k8sMode))
    (hcc : env.createClaimErr = none)
    (hcb : env.createBindingErr = none) :
    (∀ v, ps.lookup "mount" = some v → (∀ s, v ≠ .str s) →
      evaluateContainerPath ps instanceID = none ∧
      (Broker.Bind store ns env instanceID bindingID bd).result = .panicked) ∧
    (∀ s, ps.lookup "mount" = some (.str s) → s ≠ "" →
      evaluateContainerPath ps instanceID = some s) ∧
    (ps.lookup "mount" = none ∨ ps.lookup "mount" = some (.str "") →
      evaluateContainerPath ps instanceID
        = some (pathJoin DefaultContainerPath instanceID)) := by
  refine ⟨?_, ?_, ?_⟩
  · intro v hv hnstr
    have hpath : evaluateContainerPath ps instanceID = none := by
      rcases v with s | n | b | _ | _
      · exact absurd rfl (hnstr s)
      · simp [evaluateContainerPath, hv]
      · simp [evaluateContainerPath, hv]
      · simp [evaluateContainerPath, hv]
      · simp [evaluateContainerPath, hv]
    refine ⟨hpath, ?_⟩
    simp [Broker.Bind, hinst, hfp, hps, hnoconf, hmode, hcc, hcb, hpath]
  · intro s hv hs
    simp [evaluateContainerPath, hv, hs]
  · intro hv
    rcases hv with h | h <;> simp [evaluateContainerPath, h]

/-- Witness for C10: the concrete Bind whose `mount` parameter is the
number 5 panics, and the path evaluation at an absent `mount` yields the
default path under the instance identifier. -/
theorem bind_mount_param_type_assertion_witness :
    (Broker.Bind st1 "ns" benv0 "i1" "b1" bdMount).result = .panicked ∧
    evaluateContainerPath [] "i1" = some "/var/vcap/data/i1" := by
  refine ⟨?_, ?_⟩
  · exact ((bind_mount_param_type_assertion st1 "ns" benv0 "i1" "b1" bdMount recA
      ⟨"k8s-volume", volA⟩ [("mount", .num 5)] "rw" .readWriteMany rfl rfl rfl rfl rfl rfl
      rfl).1 (.num 5) rfl (fun s h => JVal.noConfusion h)).2
  · exact (bind_mount_param_type_assertion st1 "ns" benv0 "i1" "b1" bd0 recA
      ⟨"k8s-volume", volA⟩ [] "rw" .readWriteMany rfl rfl rfl rfl rfl rfl rfl).2.2 (Or.inl rfl)

/-- The validation loop of `NewServicesRegistry` reports nothing when every
entry is valid, whatever the starting index. -/
theorem firstInvalidService_none (l : List Service)
    (h : ∀ s ∈ l, ¬(s.id = "" ∨ s.name = "" ∨ s.description = "" ∨ s.plans = none)) :
    ∀ n, firstInvalidService n l = none := by
  induction l with
  | nil => intro n; rfl
  | cons s rest ih =>
    intro n
    have hs := h s (List.mem_cons_self s rest)
    simp only [firstInvalidService]
    rw [if_neg hs]
    exact ih (fun t ht => h t (List.mem_cons_of_mem s ht)) (n + 1)

/-- The validation loop of `NewServicesRegistry` reports the first
offending index, offset by the starting index. -/
theorem firstInvalidService_some (l : List Service) :
    ∀ (i n : Nat) (s : Service), l.get? i = some s →
    (s.id = "" ∨ s.name = "" ∨ s.description = "" ∨ s.plans = none) →
    (∀ j t, j < i → l.get? j = some t →
      ¬(t.id = "" ∨ t.name = "" ∨ t.description = "" ∨ t.plans = none)) →
    firstInvalidService n l = some (n + i) := by
  induction l with
  | nil => intro i n s hget; simp at hget
  | cons hd rest ih =>
    intro i n s hget hbad hpre
    cases i with
    | zero =>
      simp at hget
      subst hget
      simp only [firstInvalidService]
      rw [if_pos hbad]
      simp
    | succ i2 =>
      have hhd := hpre 0 hd (Nat.succ_pos i2) rfl
      simp only [firstInvalidService]
      rw [if_neg hhd]
      have hr := ih i2 (n + 1) s (by simpa using hget) hbad
        (fun j t hj hg => hpre (j + 1) t (Nat.succ_lt_succ hj) (by simpa using hg))
      rw [hr]
      congr 1
      omega

/-- Counterexample to C6: an offering whose plan list is present but empty
(a non-nil empty `Plans` slice) passes the `Plans == nil` check, so
registry construction succeeds instead of rejecting the entry. -/
theorem registry_accepts_empty_plan_list :
    NewServicesRegistry [svcEmptyPlans] = .ok ⟨[svcEmptyPlans], [], []⟩ ∧
    svcEmptyPlans.plans = some [] :=
  ⟨rfl, rfl⟩

/-- C6 as amended: registry construction from a parsed offering list fails
with the empty-specfile error when the list is empty, and with the
invalid-service error carrying the index of the first entry lacking an
identifier, a name, a description, or whose plan list is nil (absent); an
entry with a present-but-empty plan list is accepted.  On success the
registry holds the offering list with both connection caches empty, and no
connection is opened. -/
theorem services_registry_construction (services : List Service) :
    (services = [] → NewServicesRegistry services = .error .emptySpecFile) ∧
    (∀ i s, services.get? i = some s →
      (s.id = "" ∨ s.name = "" ∨ s.description = "" ∨ s.plans = none) →
      (∀ j t, j < i → services.get? j = some t →
        ¬(t.id = "" ∨ t.name = "" ∨ t.description = "" ∨ t.plans = none)) →
      NewServicesRegistry services = .error (.invalidService i)) ∧
    ((∀ s ∈ services, ¬(s.id = "" ∨ s.name = "" ∨ s.description = "" ∨ s.plans = none)) →
      services ≠ [] →
      NewServicesRegistry services = .ok ⟨services, [], []⟩) := by
  refine ⟨?_, ?_, ?_⟩
  · intro h
    subst h
    rfl
  · intro i s hget hbad hpre
    have hlen : ¬ services.length < 1 := by
      cases services with
      | nil => simp at hget
      | cons a l => simp
    have hfi := firstInvalidService_some services i 0 s hget hbad hpre
    simp [NewServicesRegistry, hlen, hfi]
  · intro hall hne
    have h1 := firstInvalidService_none services hall 0
    have hlen : ¬ services.length < 1 := by
      cases services with
      | nil => exact absurd rfl hne
      | cons a l => simp
    simp [NewServicesRegistry, hlen, h1]

/-- Witness for the amended C6: the empty catalog errors, a catalog whose
second entry lacks a description errors with index 1, and the concrete
two-offering catalog builds a registry with empty caches. -/
theorem services_registry_construction_witness :
    NewServicesRegistry [] = .error .emptySpecFile ∧
    NewServicesRegistry [svc1, ⟨"d", "", "svc-x", "x", "", some [plan1]⟩]
      = .error (.invalidService 1) ∧
    NewServicesRegistry [svc1, svcDial] = .ok ⟨[svc1, svcDial], [], []⟩ := by
  refine ⟨?_, ?_, ?_⟩
  · exact (services_registry_construction []).1 rfl
  · exact (services_registry_construction [svc1, ⟨"d", "", "svc-x", "x", "", some [plan1]⟩]).2.1
      1 ⟨"d", "", "svc-x", "x", "", some [plan1]⟩ rfl (by simp [svc1])
      (by
        intro j t hj hg
        interval_cases j
        · simp at hg
          subst hg
          simp [svc1])
  · exact (services_registry_construction [svc1, svcDial]).2.2 (by decide) (by simp)

/-- C7: both client caches memoize.  For each cache: a call that finds a
cached client returns it without dialing and without mutating the
registry; an identifier absent from the catalog fails with the
service-not-found error without dialing or mutating; a failed dial caches
nothing and returns the transport error; a successful dial caches the
constructed client, and a later call for the same identifier returns that
same client without dialing and without further mutation. -/
theorem registry_clients_memoize
    (r : ServicesRegistry) (env env2 : DialEnv) (serviceID : String) :
    (∀ c, r.identityClients.lookup serviceID = some c →
      r.IdentityClient env serviceID = (.ok c, r, false)) ∧
    (r.identityClients.lookup serviceID = none →
      r.findServiceByID serviceID = none →
      r.IdentityClient env serviceID = (.error (.serviceNotFound serviceID), r, false)) ∧
    (∀ svc e, r.identityClients.lookup serviceID = none →
      r.findServiceByID serviceID = some svc → svc.connAddr ≠ "" →
      env.dialResult = .error e →
      r.IdentityClient env serviceID = (.error e, r, true)) ∧
    (∀ svc conn, r.identityClients.lookup serviceID = none →
      r.findServiceByID serviceID = some svc → svc.connAddr ≠ "" →
      env.dialResult = .ok conn →
      r.IdentityClient env serviceID
        = (.ok (.fromConn conn),
           ⟨r.services, (serviceID, Client.fromConn conn) :: r.identityClients,
            r.controllerClients⟩, true) ∧
      ((r.IdentityClient env serviceID).2.1.IdentityClient env2 serviceID)
        = (.ok (.fromConn conn), (r.IdentityClient env serviceID).2.1, false)) ∧
    (∀ c, r.controllerClients.lookup serviceID = some c →
      r.ControllerClient env serviceID = (.ok c, r, false)) ∧
    (r.controllerClients.lookup serviceID = none →
      r.findServiceByID serviceID = none →
      r.ControllerClient env serviceID = (.error (.serviceNotFound serviceID), r, false)) ∧
    (∀ svc e, r.controllerClients.lookup serviceID = none →
      r.findServiceByID serviceID = some svc → svc.connAddr ≠ "" →
      env.dialResult = .error e →
      r.ControllerClient env serviceID = (.error e, r, true)) ∧
    (∀ svc conn, r.controllerClients.lookup serviceID = none →
      r.findServiceByID serviceID = some svc → svc.connAddr ≠ "" →
      env.dialResult = .ok conn →
      r.ControllerClient env serviceID
        = (.ok (.fromConn conn),
           ⟨r.services, r.identityClients,
            (serviceID, Client.fromConn conn) :: r.controllerClients⟩, true) ∧
      ((r.ControllerClient env serviceID).2.1.ControllerClient env2 serviceID)
        = (.ok (.fromConn conn), (r.ControllerClient env serviceID).2.1, false)) := by
  refine ⟨?_, ?_, ?_, ?_, ?_, ?_, ?_, ?_⟩
  · intro c hc
    simp [ServicesRegistry.IdentityClient, hc]
  · intro h1 h2
    simp [ServicesRegistry.IdentityClient, h1, h2]
  · intro svc e h1 h2 haddr hd
    simp [ServicesRegistry.IdentityClient, h1, h2, haddr, hd]
  · intro svc conn h1 h2 haddr hd
    have heq : r.IdentityClient env serviceID
        = (.ok (.fromConn conn),
           ⟨r.services, (serviceID, Client.fromConn conn) :: r.identityClients,
            r.controllerClients⟩, true) := by
      simp [ServicesRegistry.IdentityClient, h1, h2, haddr, hd]
    refine ⟨heq, ?_⟩
    rw [heq]
    simp [ServicesRegistry.IdentityClient, List.lookup]
  · intro c hc
    simp [ServicesRegistry.ControllerClient, hc]
  · intro h1 h2
    simp [ServicesRegistry.ControllerClient, h1, h2]
  · intro svc e h1 h2 haddr hd
    simp [ServicesRegistry.ControllerClient, h1, h2, haddr, hd]
  · intro svc conn h1 h2 haddr hd
    have heq : r.ControllerClient env serviceID
        = (.ok (.fromConn conn),
           ⟨r.services, r.identityClients,
            (serviceID, Client.fromConn conn) :: r.controllerClients⟩, true) := by
      simp [ServicesRegistry.ControllerClient, h1, h2, haddr, hd]
    refine ⟨heq, ?_⟩
    rw [heq]
    simp [ServicesRegistry.ControllerClient, List.lookup]

/-- Witness for C7: on the concrete registry, resolving the dialing
offering `svc-2` caches the client built from connection 7, and the
immediate second call — even with a dial environment that would fail —
returns that same client without dialing; an unknown identifier fails with
the service-not-found error without mutating the registry. -/
theorem registry_clients_memoize_witness :
    reg1.IdentityClient envDialOk "svc-2"
      = (.ok (.fromConn 7), ⟨reg1.services, [("svc-2", Client.fromConn 7)], []⟩, true) ∧
    ((reg1.IdentityClient envDialOk "svc-2").2.1.IdentityClient envDialFail "svc-2")
      = (.ok (.fromConn 7), (reg1.IdentityClient envDialOk "svc-2").2.1, false) ∧
    reg1.ControllerClient envDialFail "no-such-service"
      = (.error (.serviceNotFound "no-such-service"), reg1, false) := by
  refine ⟨?_, ?_, ?_⟩
  · exact ((registry_clients_memoize reg1 envDialOk envDialFail "svc-2").2.2.2.1 svcDial 7
      rfl rfl (by decide) rfl).1
  · exact ((registry_clients_memoize reg1 envDialOk envDialFail "svc-2").2.2.2.1 svcDial 7
      rfl rfl (by decide) rfl).2
  · exact (registry_clients_memoize reg1 envDialFail envDialOk
      "no-such-service").2.2.2.2.2.1 rfl rfl

end K8s
